import Mathlib

/-!
Verification development for the RuthApp frontend.

The definitions below are shallow embeddings of the client-side logic of the
repository:

* the axios 401 response interceptor of src/frontend/src/services/api.js;
* the letters list filter and status toggle of
  src/frontend/src/pages/LettersPage.jsx;
* the writing-profile wizard of
  src/frontend/src/components/WritingProfileWizard.jsx, as a state machine
  over its component state (currentStep, formData, aiDescriptions,
  selectedDescription, error) with one event per user interaction the
  rendered UI offers at each step;
* the letter wizard of src/frontend/src/components/LetterWizard.jsx,
  likewise.

Each definition mirrors the corresponding JavaScript function; theorems at
the end settle the behavioural claims.
-/

namespace RuthApp

/-! ## WritingProfileWizard.jsx: toggleCoreValue

JS: core_values.includes(valueKey) ? filter(v => v !== valueKey)
    : [...core_values, valueKey]. -/

/-- Model of toggleCoreValue (WritingProfileWizard.jsx, lines 153-160): if
the key is already in the list every occurrence is removed by filtering,
otherwise it is appended at the end. -/
def toggleCoreValue (l : List String) (k : String) : List String :=
  if k ∈ l then l.filter (fun v => v ≠ k) else l ++ [k]

/-! ## LettersPage.jsx: client-side letter filtering -/

/-- Recipient entry of a letter, as consumed by the letters page. -/
structure Recipient where
  name : String
  title : String
deriving DecidableEq

/-- Letter record as consumed by the letters page. The base_content field is
never consulted by the filter. -/
structure Letter where
  subject : String
  category : String
  status : String
  base_content : String
  recipients : List Recipient
deriving DecidableEq

/-- JS String.prototype.toLowerCase, modelled as charwise lowering (a
kernel-reducible form of String.toLower, which maps Char.toLower over the
characters). -/
def lowerStr (s : String) : String :=
  ⟨s.data.map Char.toLower⟩

/-- JS String.prototype.trim, modelled as dropping whitespace characters
from both ends of the character list (a kernel-reducible form of
String.trim). -/
def trimStr (s : String) : String :=
  ⟨((s.data.dropWhile Char.isWhitespace).reverse.dropWhile Char.isWhitespace).reverse⟩

/-- JS String.prototype.includes, modelled as character-list infix
containment. -/
def containsSub (hay needle : String) : Bool :=
  decide (needle.data <:+: hay.data)

/-- Search predicate of filterLetters (LettersPage.jsx, lines 90-97): the
lowercased search term must occur in the lowercased subject, the lowercased
category, or some recipient name lowercased. No other field is consulted. -/
def matchesSearch (searchTerm : String) (l : Letter) : Bool :=
  let term := lowerStr searchTerm
  containsSub (lowerStr l.subject) term || containsSub (lowerStr l.category) term ||
    l.recipients.any (fun r => containsSub (lowerStr r.name) term)

/-- Representative predicate of filterLetters (LettersPage.jsx, lines
100-104): some recipient name equals the selected filter exactly. -/
def hasRecipientNamed (rep : String) (l : Letter) : Bool :=
  l.recipients.any (fun r => r.name == rep)

/-- Model of filterLetters (LettersPage.jsx, lines 83-107). The status
filter is unconditional; the search stage runs only for a truthy (non-empty)
search term; the representative stage runs only when the selection is not
the sentinel value "all". The page initialises statusFilter to "draft". -/
def filterLetters (letters : List Letter)
    (searchTerm selectedRepFilter statusFilter : String) : List Letter :=
  let result := letters.filter (fun l => l.status == statusFilter)
  let result := if searchTerm ≠ "" then result.filter (matchesSearch searchTerm) else result
  if selectedRepFilter ≠ "all" then result.filter (hasRecipientNamed selectedRepFilter)
  else result

/-! ## LettersPage.jsx: handleToggleStatus -/

/-- Observable effects issued by handleToggleStatus, in order. The
fullPageReload constructor exists so that the absence of a reload is
expressible; no code path of the model emits it, matching the page, which
refreshes through loadLetters (an API re-fetch) only. -/
inductive ApiEffect where
  | updateLetterStatus (letterId : Nat) (status : String)
  | getLettersFetch (limit : Nat)
  | fullPageReload
deriving DecidableEq

/-- Status sent by handleToggleStatus (LettersPage.jsx, line 255):
currentStatus === 'draft' ? 'finalized' : 'draft'. -/
def toggledStatus (currentStatus : String) : String :=
  if currentStatus == "draft" then "finalized" else "draft"

/-- Model of handleToggleStatus (LettersPage.jsx, lines 252-266): it PATCHes
the opposite status, then re-fetches the letter list (loadLetters uses
limit 50); on failure it records an error message instead of refreshing. -/
def handleToggleStatus (letterId : Nat) (currentStatus : String)
    (updateResult : Except String Unit) : List ApiEffect × Option String :=
  match updateResult with
  | .ok _ =>
      ([.updateLetterStatus letterId (toggledStatus currentStatus), .getLettersFetch 50], none)
  | .error msg =>
      ([.updateLetterStatus letterId (toggledStatus currentStatus)],
        some ("Failed to update letter status: " ++ msg))

/-! ## services/api.js: the 401 refresh interceptor -/

/-- Payload of a successful POST /api/auth/refresh. -/
structure RefreshResponse where
  access_token : String
  refresh_token : Option String
deriving DecidableEq

/-- Environment of one pass through the response interceptor: the outcome of
the refresh call (error = its rejection status) and of the retried request
(none = the retry succeeds, some s = it rejects with status s). -/
structure InterceptEnv where
  refreshResult : Except Nat RefreshResponse
  retryStatus : Option Nat

/-- Browser-visible client state: the two localStorage token keys and the
location (some "/login" once the interceptor navigates there). -/
structure ClientState where
  access : Option String
  refresh : Option String
  location : Option String
deriving DecidableEq

/-- Network attempts observable from the interceptor. -/
inductive AuthEvent where
  | refreshCall
  | retryCall
deriving DecidableEq

/-- Model of the response interceptor of services/api.js (lines 20-53) when
a request fails with the given status; retryFlag is the _retry marker on the
request config. On 401 with the marker unset the interceptor marks the
request, refreshes, stores the new tokens and re-sends the request. The
re-send is returned, not awaited, so a rejection of the retried request is
not caught here: it re-enters the interceptor with the marker set, whose
401 guard is then false, and the rejection propagates to the caller; that
behaviour is inlined in the retryStatus branch (the respInterceptor_retried
lemma checks the inlining against the marker-set case of this very
function). Only a rejection of the refresh call itself reaches the catch
block, which clears both tokens and navigates to /login. -/
def respInterceptor (retryFlag : Bool) (status : Nat) (env : InterceptEnv)
    (st : ClientState) : ClientState × List AuthEvent × Except Nat Unit :=
  if status = 401 ∧ retryFlag = false then
    match env.refreshResult with
    | .ok resp =>
        let st1 : ClientState :=
          { st with
            access := some resp.access_token
            refresh := match resp.refresh_token with
                       | some r => some r
                       | none => st.refresh }
        match env.retryStatus with
        | none => (st1, [.refreshCall, .retryCall], .ok ())
        | some s2 => (st1, [.refreshCall, .retryCall], .error s2)
    | .error e =>
        ({ access := none, refresh := none, location := some "/login" },
          [.refreshCall], .error e)
  else (st, [], .error status)

/-! ## WritingProfileWizard.jsx as a state machine

The component state that the claims depend on is currentStep, formData,
aiDescriptions, selectedDescription and the error banner; onSuccess/onClose
invocations are recorded in the succeeded/closed flags. Each user
interaction the rendered UI offers becomes one event; an event is a no-op
unless the control that raises it is rendered at the current step. Async
calls are modelled atomically by an event carrying the settled outcome of
the promise, so states are observed quiescent and the loading flag is
omitted (it is false in every observed state). -/

namespace WritingProfileWizard

/-- Per-issue entry of formData.issue_positions. The JS object fields start
absent (undefined); an absent field and the empty string are indistinguishable
to every consumer (all checks are truthiness checks), so both are modelled
as the empty string. -/
structure IssuePosition where
  position : String
  priority : String
  personal_connection : String
deriving DecidableEq

/-- formData.representative_engagement. -/
structure RepresentativeEngagement where
  aligned_approach : String
  opposing_approach : String
  bipartisan_framing : String
deriving DecidableEq

/-- formData.regional_context. -/
structure RegionalContext where
  state_concerns : String
  community_type : String
deriving DecidableEq

/-- formData.compromise_positioning. -/
structure CompromisePositioning where
  incremental_progress : String
  bipartisan_preference : String
deriving DecidableEq

/-- The wizard form state (WritingProfileWizard.jsx, lines 13-56). JS
objects keyed by issue or framework are association lists with unique keys
in insertion order. -/
structure ProfileFormData where
  name : String
  description : String
  political_leaning : String
  issue_positions : List (String × IssuePosition)
  abortion_position : String
  core_values : List String
  preferred_tone : String
  additional_context : String
  argumentative_frameworks : List (String × Bool)
  representative_engagement : RepresentativeEngagement
  regional_context : RegionalContext
  compromise_positioning : CompromisePositioning
  writing_samples : List String
deriving DecidableEq

/-- Payload of a successful generate-description call; each variant is
possibly absent. -/
structure Descriptions where
  formal : Option String
  passionate : Option String
  balanced : Option String
deriving DecidableEq

/-- Full component state of the writing-profile wizard. -/
structure WizState where
  currentStep : Int
  editMode : Bool
  formData : ProfileFormData
  aiDescriptions : Option Descriptions
  selectedDescription : String
  error : String
  succeeded : Bool
  closed : Bool
deriving DecidableEq

/-- Initial formData of a fresh (non-edit) wizard (lines 13-56). -/
def defaultFormData : ProfileFormData :=
  { name := "", description := "", political_leaning := "", issue_positions := [],
    abortion_position := "", core_values := [], preferred_tone := "professional",
    additional_context := "", argumentative_frameworks := [],
    representative_engagement := ⟨"", "", ""⟩, regional_context := ⟨"", ""⟩,
    compromise_positioning := ⟨"", ""⟩, writing_samples := [] }

/-- Initial states of the wizard. A fresh wizard starts with defaultFormData
and an empty selectedDescription; in edit mode the pre-population effect
(lines 68-97) overwrites formData and selectedDescription from the existing
profile while the component is still on step 1 with aiDescriptions null, so
both modes are covered by quantifying over fd and sel. -/
def initState (editMode : Bool) (fd : ProfileFormData) (sel : String) : WizState :=
  { currentStep := 1, editMode := editMode, formData := fd, aiDescriptions := none,
    selectedDescription := sel, error := "", succeeded := false, closed := false }

/-- Model of validateCurrentStep (lines 196-265): none means the current
step validates, some e means validation failed and setError(e) ran. -/
def validateCurrentStep (s : WizState) : Option String :=
  if s.currentStep = 1 then
    if trimStr s.formData.name = "" then some "Please enter a profile name" else none
  else if s.currentStep = 2 then
    if s.formData.issue_positions.isEmpty then some "Please select at least one issue"
    else if s.formData.issue_positions.any
        (fun p => p.2.position = "" ∨ p.2.priority = "") then
      some "Please set position and priority for all selected issues"
    else none
  else if s.currentStep = 3 then none
  else if s.currentStep = 4 then
    if s.formData.core_values.length < 3 then some "Please select at least 3 core values"
    else if 5 < s.formData.core_values.length then
      some "Please select no more than 5 core values"
    else none
  else if s.currentStep = 5 then
    if s.formData.preferred_tone = "" then some "Please select a writing tone" else none
  else if s.currentStep = 6 then
    if (s.formData.argumentative_frameworks.filter (fun p => p.2)).length = 0 then
      some "Please select at least one argumentative framework"
    else none
  else if s.currentStep = 7 then
    if s.formData.representative_engagement.aligned_approach = "" ∨
        s.formData.representative_engagement.opposing_approach = "" ∨
        s.formData.representative_engagement.bipartisan_framing = "" then
      some "Please complete all representative engagement options"
    else none
  else if s.currentStep = 8 then
    if s.aiDescriptions = none then some "Please generate descriptions for your profile"
    else if trimStr s.selectedDescription = "" then some "Please select a profile description"
    else none
  else none

/-- Model of nextStep (lines 172-177): advance one step and clear the error
when the current step validates, otherwise keep the step and show the
validation error. -/
def nextStep (s : WizState) : WizState :=
  match validateCurrentStep s with
  | none => { s with currentStep := s.currentStep + 1, error := "" }
  | some e => { s with error := e }

/-- Model of prevStep (lines 179-182): unconditionally retreat one step and
clear the error. -/
def prevStep (s : WizState) : WizState :=
  { s with currentStep := s.currentStep - 1, error := "" }

/-- Model of isNextButtonDisabled (lines 184-194) in a quiescent state
(loading false): Next is disabled on step 8 until descriptions exist. -/
def isNextButtonDisabled (s : WizState) : Bool :=
  s.currentStep = 8 ∧ s.aiDescriptions = none

/-- Model of toggleIssueSelection (lines 124-138): delete the key when
present, otherwise add it with empty position, priority and personal
connection. -/
def toggleIssueSelection (ips : List (String × IssuePosition)) (k : String) :
    List (String × IssuePosition) :=
  if ips.any (fun p => p.1 = k) then ips.filter (fun p => p.1 ≠ k)
  else ips ++ [(k, ⟨"", "", ""⟩)]

/-- Field update by name used by updateIssuePosition. -/
def setIssueField (ip : IssuePosition) (f v : String) : IssuePosition :=
  if f = "position" then { ip with position := v }
  else if f = "priority" then { ip with priority := v }
  else if f = "personal_connection" then { ip with personal_connection := v }
  else ip

/-- Model of updateIssuePosition (lines 140-151): spread-update of the entry
for the key; an absent entry spreads from undefined, whose missing fields
are modelled as empty strings. -/
def updateIssuePosition (ips : List (String × IssuePosition)) (k f v : String) :
    List (String × IssuePosition) :=
  if ips.any (fun p => p.1 = k) then
    ips.map (fun p => if p.1 = k then (k, setIssueField p.2 f v) else p)
  else ips ++ [(k, setIssueField ⟨"", "", ""⟩ f v)]

/-- Model of toggleFramework (lines 162-170): negate the flag for the key
(an absent key reads as false, so it is added as true). -/
def toggleFramework (fws : List (String × Bool)) (k : String) : List (String × Bool) :=
  if fws.any (fun p => p.1 = k) then
    fws.map (fun p => if p.1 = k then (k, !p.2) else p)
  else fws ++ [(k, true)]

/-- Rendering condition of a description radio button in renderStep8: the
variant must be present and truthy (non-empty). -/
def descAvailable (o : Option Descriptions) (d : String) : Bool :=
  match o with
  | none => false
  | some ds => d ≠ "" ∧ (ds.formal = some d ∨ ds.passionate = some d ∨ ds.balanced = some d)

/-- Fallback error of handleSubmit (line 341). -/
def submitFallbackError (editMode : Bool) : String :=
  if editMode then "Failed to update profile" else "Failed to create profile"

/-- Model of handleSubmit (lines 309-346) applied to the settled outcome of
the create/update call: an invalid current step only shows the validation
error (no network call); a fulfilled call invokes onSuccess then onClose; a
rejected call shows the backend detail when truthy, else the fallback, and
touches nothing else. -/
def handleSubmit (s : WizState) (result : Except (Option String) Unit) : WizState :=
  match validateCurrentStep s with
  | some e => { s with error := e }
  | none =>
      match result with
      | .ok _ => { s with error := "", succeeded := true, closed := true }
      | .error detail =>
          { s with error :=
              (match detail with
               | some m => if m = "" then submitFallbackError s.editMode else m
               | none => submitFallbackError s.editMode) }

/-- User interactions and settled async outcomes of the wizard. Async
results carry Except (Option String) payloads whose error part is the
optional backend detail string. -/
inductive Event where
  | next
  | prev
  | cancel
  | setName (v : String)
  | setDescription (v : String)
  | setPoliticalLeaning (v : String)
  | toggleIssue (k : String)
  | setIssuePosition (k f v : String)
  | setAbortionPosition (v : String)
  | toggleCoreValueE (k : String)
  | setTone (v : String)
  | setAdditionalContext (v : String)
  | toggleFrameworkE (k : String)
  | setAligned (v : String)
  | setOpposing (v : String)
  | setBipartisan (v : String)
  | setCommunityType (v : String)
  | setStateConcerns (v : String)
  | generateResult (r : Except (Option String) (Option Descriptions))
  | selectDescription (d : String)
  | setWritingSamples (vs : List String)
  | submitResult (r : Except (Option String) Unit)

/-- One step of the wizard state machine. An event applies only while the
modal is open and only when the control raising it is rendered: field
editors at their step, Next while currentStep < 10 and not disabled,
Previous while currentStep > 1, generation and description selection at
step 8, submission at step 10. updateField and updateNestedField clear the
error; the toggle helpers do not. generateResult .ok none models a
response without a descriptions object: setAiDescriptions(null) runs, then
reading .balanced throws inside the try and the catch shows the fallback
message. -/
def applyEvent (s : WizState) (e : Event) : WizState :=
  if s.closed then s else
  match e with
  | .next => if s.currentStep < 10 ∧ ¬isNextButtonDisabled s then nextStep s else s
  | .prev => if 1 < s.currentStep then prevStep s else s
  | .cancel => { s with closed := true }
  | .setName v =>
      if s.currentStep = 1 then
        { s with formData := { s.formData with name := v }, error := "" }
      else s
  | .setDescription v =>
      if s.currentStep = 1 then
        { s with formData := { s.formData with description := v }, error := "" }
      else s
  | .setPoliticalLeaning v =>
      if s.currentStep = 1 then
        { s with formData := { s.formData with political_leaning := v }, error := "" }
      else s
  | .toggleIssue k =>
      if s.currentStep = 2 then
        { s with formData :=
            { s.formData with issue_positions := toggleIssueSelection s.formData.issue_positions k } }
      else s
  | .setIssuePosition k f v =>
      if s.currentStep = 2 then
        { s with formData :=
            { s.formData with issue_positions := updateIssuePosition s.formData.issue_positions k f v } }
      else s
  | .setAbortionPosition v =>
      if s.currentStep = 3 then
        { s with formData := { s.formData with abortion_position := v }, error := "" }
      else s
  | .toggleCoreValueE k =>
      if s.currentStep = 4 then
        { s with formData :=
            { s.formData with core_values := toggleCoreValue s.formData.core_values k } }
      else s
  | .setTone v =>
      if s.currentStep = 5 then
        { s with formData := { s.formData with preferred_tone := v }, error := "" }
      else s
  | .setAdditionalContext v =>
      if s.currentStep = 5 then
        { s with formData := { s.formData with additional_context := v }, error := "" }
      else s
  | .toggleFrameworkE k =>
      if s.currentStep = 6 then
        { s with formData :=
            { s.formData with
              argumentative_frameworks := toggleFramework s.formData.argumentative_frameworks k } }
      else s
  | .setAligned v =>
      if s.currentStep = 7 then
        { s with
          formData :=
            { s.formData with
              representative_engagement :=
                { s.formData.representative_engagement with aligned_approach := v } },
          error := "" }
      else s
  | .setOpposing v =>
      if s.currentStep = 7 then
        { s with
          formData :=
            { s.formData with
              representative_engagement :=
                { s.formData.representative_engagement with opposing_approach := v } },
          error := "" }
      else s
  | .setBipartisan v =>
      if s.currentStep = 7 then
        { s with
          formData :=
            { s.formData with
              representative_engagement :=
                { s.formData.representative_engagement with bipartisan_framing := v } },
          error := "" }
      else s
  | .setCommunityType v =>
      if s.currentStep = 7 then
        { s with
          formData :=
            { s.formData with
              regional_context :=
                { s.formData.regional_context with community_type := v } },
          error := "" }
      else s
  | .setStateConcerns v =>
      if s.currentStep = 7 then
        { s with
          formData :=
            { s.formData with
              regional_context :=
                { s.formData.regional_context with state_concerns := v } },
          error := "" }
      else s
  | .generateResult r =>
      if s.currentStep = 8 then
        match r with
        | .ok (some d) =>
            { s with aiDescriptions := some d,
                     selectedDescription :=
                       (match d.balanced with
                        | some b => if b = "" then s.selectedDescription else b
                        | none => s.selectedDescription),
                     error := "" }
        | .ok none =>
            { s with aiDescriptions := none, error := "Failed to generate descriptions" }
        | .error detail =>
            { s with error :=
                (match detail with
                 | some m => if m = "" then "Failed to generate descriptions" else m
                 | none => "Failed to generate descriptions") }
      else s
  | .selectDescription d =>
      if s.currentStep = 8 ∧ descAvailable s.aiDescriptions d then
        { s with selectedDescription := d }
      else s
  | .setWritingSamples vs =>
      if s.currentStep = 9 then
        { s with formData := { s.formData with writing_samples := vs }, error := "" }
      else s
  | .submitResult r => if s.currentStep = 10 then handleSubmit s r else s

/-- Reachable component states: an initial state, or any state obtained
from a reachable one by an event. -/
inductive Reachable : WizState → Prop where
  | init (editMode : Bool) (fd : ProfileFormData) (sel : String) :
      Reachable (initState editMode fd sel)
  | tick (s : WizState) (e : Event) : Reachable s → Reachable (applyEvent s e)

/-- Condition under which handleSubmit issues the create/update network
call: the submit button is rendered (step 10, modal open) and
validateCurrentStep passes. -/
def submitIssuesNetworkCall (s : WizState) : Prop :=
  s.currentStep = 10 ∧ s.closed = false ∧ validateCurrentStep s = none

end WritingProfileWizard

/-! ## LetterWizard.jsx as a state machine

Modelled like the writing-profile wizard. Browser URL parsing (the
WHATWG new URL constructor used by addArticleUrl) is not repository code,
so it enters the model as an abstract parameter parseProtocol: none models
a constructor throw, some p a parse whose protocol reads p. -/

namespace LetterWizard

/-- One generated letter entry built by generateLetters from the backend
response (LetterWizard.jsx, lines 168-176). -/
structure GeneratedLetter where
  id : Nat
  letter_id : Nat
  recipient_name : String
  recipient_title : String
  subject : String
  content : String
deriving DecidableEq

/-- Form state of the letter wizard (LetterWizard.jsx, lines 26-36). -/
structure LetterFormData where
  writingProfileId : String
  recipientIds : List Nat
  articleUrls : List String
  suggestedTopics : List String
  selectedTopic : String
  customTopic : String
  customContext : String
  sameLetterForAll : Bool
  generatedLetters : List GeneratedLetter
deriving DecidableEq

/-- Component state of the letter wizard: step, form data, the URL input
box, the error banner and a closed flag (handleClose invoked). -/
structure LWState where
  currentStep : Int
  formData : LetterFormData
  currentUrl : String
  error : String
  closed : Bool
deriving DecidableEq

/-- Initial state of the letter wizard (lines 17-39). -/
def lwInitState : LWState :=
  { currentStep := 1,
    formData :=
      { writingProfileId := "", recipientIds := [], articleUrls := [],
        suggestedTopics := [], selectedTopic := "", customTopic := "",
        customContext := "", sameLetterForAll := true, generatedLetters := [] },
    currentUrl := "", error := "", closed := false }

/-- Model of toggleRecipient (lines 76-83). -/
def toggleRecipient (ids : List Nat) (id : Nat) : List Nat :=
  if id ∈ ids then ids.filter (fun i => i ≠ id) else ids ++ [id]

/-- Model of validateCurrentStep (lines 217-246) of the letter wizard. -/
def validateCurrentStep (s : LWState) : Option String :=
  if s.currentStep = 1 then
    if s.formData.writingProfileId = "" then some "Please select a writing profile" else none
  else if s.currentStep = 2 then
    if s.formData.recipientIds.isEmpty then
      some "Please select at least one representative"
    else none
  else if s.currentStep = 4 then
    if s.formData.selectedTopic = "" ∧ s.formData.customTopic = "" then
      some "Please select or enter a topic for your letter"
    else none
  else none

/-- Model of nextStep (lines 205-210) of the letter wizard. -/
def nextStep (s : LWState) : LWState :=
  match validateCurrentStep s with
  | none => { s with currentStep := s.currentStep + 1, error := "" }
  | some e => { s with error := e }

/-- Model of prevStep (lines 212-215) of the letter wizard: unconditional
decrement. -/
def prevStep (s : LWState) : LWState :=
  { s with currentStep := s.currentStep - 1, error := "" }

/-- Model of addArticleUrl (lines 85-118). Blank input returns silently.
A parse failure or a non-http(s) protocol sets an error and changes
nothing. A duplicate of the trimmed URL sets an error and changes nothing.
Otherwise the trimmed URL is appended and the input box and error are
cleared. -/
def addArticleUrl (parseProtocol : String → Option String) (s : LWState) : LWState :=
  let trimmedUrl := trimStr s.currentUrl
  if trimmedUrl = "" then s
  else
    match parseProtocol trimmedUrl with
    | none => { s with error := "Please enter a valid URL (e.g., https://example.com/article)" }
    | some proto =>
        if ¬(proto = "http:" ∨ proto = "https:") then
          { s with error := "Please enter a valid HTTP or HTTPS URL" }
        else if trimmedUrl ∈ s.formData.articleUrls then
          { s with error := "This URL has already been added" }
        else
          { s with
            formData :=
              { s.formData with articleUrls := s.formData.articleUrls ++ [trimmedUrl] },
            currentUrl := "", error := "" }

/-- Model of removeArticleUrl (lines 120-125): filter by position. -/
def removeArticleUrl (s : LWState) (idx : Nat) : LWState :=
  { s with
    formData :=
      { s.formData with
        articleUrls := (s.formData.articleUrls.enum.filter (fun p => p.1 ≠ idx)).map Prod.snd } }

/-- User interactions and settled async outcomes of the letter wizard. -/
inductive LWEvent where
  | next
  | prev
  | cancel
  | setWritingProfileId (v : String)
  | toggleRecipientE (id : Nat)
  | setCurrentUrl (v : String)
  | addUrl
  | removeUrl (idx : Nat)
  | setSameLetterForAll (b : Bool)
  | topicsResult (r : Except String (List String))
  | selectTopic (v : String)
  | setCustomTopic (v : String)
  | setCustomContext (v : String)
  | generateLettersResult (r : Except String (List GeneratedLetter))
  | saveResult (r : Except String Unit)

/-- One step of the letter-wizard state machine; events apply only while
the wizard is open and the control raising them is rendered (the Next
button for currentStep < 6, Previous for steps 2-6, the URL controls at
step 3, topic controls at step 4, generation at step 6, save at step 7).
generateLetters stores the transformed letters then calls nextStep;
generateTopicSuggestions refuses to run without article URLs. -/
def lwApplyEvent (parseProtocol : String → Option String) (s : LWState)
    (e : LWEvent) : LWState :=
  if s.closed then s else
  match e with
  | .next => if s.currentStep < 6 then nextStep s else s
  | .prev => if 1 < s.currentStep ∧ s.currentStep < 7 then prevStep s else s
  | .cancel => { s with closed := true }
  | .setWritingProfileId v =>
      if s.currentStep = 1 then
        { s with formData := { s.formData with writingProfileId := v }, error := "" }
      else s
  | .toggleRecipientE id =>
      if s.currentStep = 2 then
        { s with
          formData :=
            { s.formData with recipientIds := toggleRecipient s.formData.recipientIds id } }
      else s
  | .setCurrentUrl v => if s.currentStep = 3 then { s with currentUrl := v } else s
  | .addUrl => if s.currentStep = 3 then addArticleUrl parseProtocol s else s
  | .removeUrl idx => if s.currentStep = 3 then removeArticleUrl s idx else s
  | .setSameLetterForAll b =>
      if s.currentStep = 3 then
        { s with formData := { s.formData with sameLetterForAll := b }, error := "" }
      else s
  | .topicsResult r =>
      if s.currentStep = 4 then
        if s.formData.articleUrls.isEmpty then
          { s with error := "Please add at least one article URL to generate topic suggestions" }
        else
          match r with
          | .ok ts =>
              { s with formData := { s.formData with suggestedTopics := ts }, error := "" }
          | .error m => { s with error := "Failed to generate topics: " ++ m }
      else s
  | .selectTopic v =>
      if s.currentStep = 4 then
        { s with
          formData := { s.formData with selectedTopic := v, customTopic := "" },
          error := "" }
      else s
  | .setCustomTopic v =>
      if s.currentStep = 4 then
        { s with
          formData := { s.formData with customTopic := v, selectedTopic := "" },
          error := "" }
      else s
  | .setCustomContext v =>
      if s.currentStep = 5 then
        { s with formData := { s.formData with customContext := v }, error := "" }
      else s
  | .generateLettersResult r =>
      if s.currentStep = 6 then
        match r with
        | .ok ls =>
            nextStep { s with
              formData := { s.formData with generatedLetters := ls }, error := "" }
        | .error m => { s with error := "Failed to generate letters: " ++ m }
      else s
  | .saveResult r =>
      if s.currentStep = 7 then
        match r with
        | .ok _ => { s with closed := true }
        | .error m => { s with error := "Failed to save letters: " ++ m }
      else s

/-- Reachable letter-wizard states under a fixed URL parser. -/
inductive LWReachable (parseProtocol : String → Option String) : LWState → Prop where
  | init : LWReachable parseProtocol lwInitState
  | tick (s : LWState) (e : LWEvent) :
      LWReachable parseProtocol s → LWReachable parseProtocol (lwApplyEvent parseProtocol s e)

/-- Scheme characters before the first "://" of a character list, when
present: helper of the concrete URL parser used in witnesses and
counterexamples (strings of the shape scheme://rest with a non-empty
alphabetic scheme parse, with protocol scheme followed by a colon;
everything else throws). -/
def schemeChars : List Char → Option (List Char)
  | [] => none
  | c :: rest =>
      if c = ':' then
        if rest.take 2 = ['/', '/'] then some [] else none
      else
        match schemeChars rest with
        | some tail => some (c :: tail)
        | none => none

/-- Protocol of strings shaped scheme://rest, used by the concrete parser
below. -/
def simpleProtocolOf (u : String) : Option String :=
  match schemeChars u.data with
  | some sc => if sc ≠ [] ∧ sc.all Char.isAlpha then some ⟨sc ++ [':']⟩ else none
  | none => none

end LetterWizard

/-! ## Concrete fixtures used by witnesses and counterexamples -/

/-- Fixture letter: finalized status, subject matching the search term
"tax", one recipient named Jane Doe. -/
def letterTax : Letter :=
  { subject := "Tax Reform", category := "economy", status := "finalized",
    base_content := "Dear Senator", recipients := [⟨"Jane Doe", "Senator"⟩] }

/-- Fixture letter identical to letterTax on subject, category and
recipient names but with different content: the filter cannot tell them
apart. -/
def letterTaxVariant : Letter :=
  { subject := "Tax Reform", category := "economy", status := "draft",
    base_content := "Entirely different body text", recipients := [⟨"Jane Doe", "Senator"⟩] }

/-- Fixture form data whose steps 1 and 2 validate. -/
def fixtureFormData : WritingProfileWizard.ProfileFormData :=
  { WritingProfileWizard.defaultFormData with
    name := "Climate Advocate",
    issue_positions := [("climate", ⟨"strongly_support", "high", ""⟩)] }

/-- Events driving a fresh wizard from step 1 to the core-values step
(step 4). -/
def wpwRunToStep4 : List WritingProfileWizard.Event :=
  [.next, .next, .next]

/-- Wizard state on the core-values step with no core value selected yet. -/
def wpwStateAtStep4 : WritingProfileWizard.WizState :=
  List.foldl WritingProfileWizard.applyEvent
    (WritingProfileWizard.initState false fixtureFormData "") wpwRunToStep4

/-- Events driving a fresh wizard from step 1 past the generation step to
step 9: fill each step so validation passes, generate descriptions on
step 8 and advance. -/
def wpwRunToStep9 : List WritingProfileWizard.Event :=
  [.next, .next, .next,
   .toggleCoreValueE "liberty", .toggleCoreValueE "fairness", .toggleCoreValueE "community",
   .next, .next,
   .toggleFrameworkE "economic", .next,
   .setAligned "thank", .setOpposing "persuade", .setBipartisan "common", .next,
   .generateResult (.ok (some ⟨some "Formal text", some "Passionate text", some "Balanced text"⟩)),
   .next]

/-- Wizard state on step 9 reached through the full run. -/
def wpwStateAtStep9 : WritingProfileWizard.WizState :=
  List.foldl WritingProfileWizard.applyEvent
    (WritingProfileWizard.initState false fixtureFormData "") wpwRunToStep9

/-- Wizard state on the review step (step 10) used to exercise
handleSubmit. -/
def wpwStateAtStep10 : WritingProfileWizard.WizState :=
  { currentStep := 10, editMode := false, formData := fixtureFormData,
    aiDescriptions := some ⟨some "Formal text", none, none⟩,
    selectedDescription := "Formal text", error := "", succeeded := false,
    closed := false }

/-- Events driving a fresh letter wizard to step 3 and adding one article
URL there. -/
def lwRunWithUrl : List LetterWizard.LWEvent :=
  [.setWritingProfileId "p1", .next, .toggleRecipientE 1, .next,
   .setCurrentUrl "https://example.com/a", .addUrl]

/-- Letter-wizard state with one validated article URL added. -/
def lwStateWithUrl : LetterWizard.LWState :=
  List.foldl (LetterWizard.lwApplyEvent LetterWizard.simpleProtocolOf)
    LetterWizard.lwInitState lwRunWithUrl

/-! ## Invariants referenced by the claims -/

namespace WritingProfileWizard

/-- The core-values count is inside the 3..5 window renderStep4 asks for. -/
def coreValuesInRange (s : WizState) : Prop :=
  3 ≤ s.formData.core_values.length ∧ s.formData.core_values.length ≤ 5

/-- Past the core-values step the window always holds. -/
def coreValuesInv (s : WizState) : Prop :=
  4 < s.currentStep → coreValuesInRange s

/-- Past the generation step descriptions exist and a non-blank one is
selected. -/
def descGateInv (s : WizState) : Prop :=
  8 < s.currentStep → s.aiDescriptions ≠ none ∧ trimStr s.selectedDescription ≠ ""

end WritingProfileWizard

namespace LetterWizard

/-- The string parses as a URL whose protocol is http or https. -/
def urlOk (parseProtocol : String → Option String) (u : String) : Prop :=
  ∃ p, parseProtocol u = some p ∧ (p = "http:" ∨ p = "https:")

/-- Every stored article URL parses as http(s) and the list has no
duplicates. -/
def articleUrlsInv (parseProtocol : String → Option String) (s : LWState) : Prop :=
  (∀ u ∈ s.formData.articleUrls, urlOk parseProtocol u) ∧ s.formData.articleUrls.Nodup

end LetterWizard

/-! ## Helper lemmas -/

/-- Filtering away an element that is not in the list changes nothing. -/
lemma filter_ne_of_not_mem {l : List String} {k : String} (h : k ∉ l) :
    l.filter (fun v => v ≠ k) = l := by
  apply List.filter_eq_self.mpr
  intro a ha
  exact decide_eq_true (fun hak => h (hak ▸ ha))

/-- A removed element re-appended at the end is a permutation of the
original duplicate-free list. -/
lemma filter_ne_append_perm {l : List String} {k : String} (h : l.Nodup)
    (hm : k ∈ l) : (l.filter (fun v => v ≠ k) ++ [k]).Perm l := by
  induction l with
  | nil => cases hm
  | cons a t ih =>
      rcases List.nodup_cons.mp h with ⟨ha, ht⟩
      by_cases hak : a = k
      · subst hak
        rw [List.filter_cons_of_neg (by simp), filter_ne_of_not_mem ha]
        exact List.perm_append_singleton a t
      · have hkt : k ∈ t := by
          rcases List.mem_cons.mp hm with h1 | h1
          · exact absurd h1.symm hak
          · exact h1
        rw [List.filter_cons_of_pos (by simp [hak])]
        exact List.Perm.cons a (ih ht hkt)

/-- Unfolding of toggleCoreValue for a present key. -/
lemma toggleCoreValue_of_mem {l : List String} {k : String} (hm : k ∈ l) :
    toggleCoreValue l k = l.filter (fun v => v ≠ k) := by
  rw [toggleCoreValue, if_pos hm]

/-- Unfolding of toggleCoreValue for an absent key. -/
lemma toggleCoreValue_of_not_mem {l : List String} {k : String} (hm : k ∉ l) :
    toggleCoreValue l k = l ++ [k] := by
  rw [toggleCoreValue, if_neg hm]

/-- Toggling twice permutes the list back when it had no duplicates. -/
lemma toggleCoreValue_toggle_perm (l : List String) (k : String) (h : l.Nodup) :
    (toggleCoreValue (toggleCoreValue l k) k).Perm l := by
  by_cases hm : k ∈ l
  · rw [toggleCoreValue_of_mem hm]
    have hk : k ∉ l.filter (fun v => v ≠ k) := by simp
    rw [toggleCoreValue_of_not_mem hk]
    exact filter_ne_append_perm h hm
  · rw [toggleCoreValue_of_not_mem hm]
    have hk : k ∈ l ++ [k] := by simp
    rw [toggleCoreValue_of_mem hk, List.filter_append, filter_ne_of_not_mem hm]
    simp

/-- Toggling twice restores the list exactly when the key was absent. -/
lemma toggleCoreValue_toggle_of_not_mem (l : List String) (k : String) (hm : k ∉ l) :
    toggleCoreValue (toggleCoreValue l k) k = l := by
  rw [toggleCoreValue_of_not_mem hm]
  have hk : k ∈ l ++ [k] := by simp
  rw [toggleCoreValue_of_mem hk, List.filter_append, filter_ne_of_not_mem hm]
  simp

/-- Membership characterisation of filterLetters: a letter survives iff it
was fetched, its status equals the status filter, it matches a non-empty
search term on subject, category or a recipient name, and it carries the
selected representative when one is selected. -/
lemma mem_filterLetters {letters : List Letter} {searchTerm rep status : String}
    {l : Letter} :
    l ∈ filterLetters letters searchTerm rep status ↔
      l ∈ letters ∧ l.status = status ∧
        (searchTerm ≠ "" → matchesSearch searchTerm l = true) ∧
        (rep ≠ "all" → hasRecipientNamed rep l = true) := by
  by_cases hs : searchTerm = "" <;> by_cases hr : rep = "all" <;>
    simp [filterLetters, hs, hr, List.mem_filter, beq_iff_eq, and_assoc] <;> tauto

/-- Letters whose recipient-name lists agree satisfy any name predicate
identically. -/
lemma recipients_any_congr {l₁ l₂ : List Recipient} (p : String → Bool)
    (h : l₁.map Recipient.name = l₂.map Recipient.name) :
    (l₁.any fun r => p r.name) = (l₂.any fun r => p r.name) := by
  induction l₁ generalizing l₂ with
  | nil =>
      cases l₂ with
      | nil => rfl
      | cons b u => simp at h
  | cons a t ih =>
      cases l₂ with
      | nil => simp at h
      | cons b u =>
          simp only [List.map_cons, List.cons.injEq] at h
          simp [List.any_cons, h.1, ih h.2]

/-- The interceptor with the _retry marker already set never refreshes: it
propagates the rejection unchanged. This is the behaviour inlined in the
retryStatus branch of respInterceptor. -/
lemma respInterceptor_retried (status : Nat) (env : InterceptEnv) (st : ClientState) :
    respInterceptor true status env st = (st, [], .error status) := by
  simp [respInterceptor]

namespace WritingProfileWizard

/-- On the core-values step a passing validation pins the count to 3..5. -/
lemma validate_none_at4 {s : WizState} (h4 : s.currentStep = 4)
    (h : validateCurrentStep s = none) : coreValuesInRange s := by
  unfold validateCurrentStep at h
  rw [h4] at h
  norm_num at h
  split_ifs at h with h1 h2
  exact ⟨by omega, by omega⟩

/-- On the generation step a passing validation requires descriptions and a
non-blank selection. -/
lemma validate_none_at8 {s : WizState} (h8 : s.currentStep = 8)
    (h : validateCurrentStep s = none) :
    s.aiDescriptions ≠ none ∧ trimStr s.selectedDescription ≠ "" := by
  unfold validateCurrentStep at h
  rw [h8] at h
  norm_num at h
  split_ifs at h with h1 h2
  exact ⟨h1, h2⟩

/-- The review step always validates (the switch falls through to its
default). -/
lemma validate_none_at10 {s : WizState} (h10 : s.currentStep = 10) :
    validateCurrentStep s = none := by
  unfold validateCurrentStep
  rw [h10]
  norm_num

set_option maxHeartbeats 1600000 in
/-- Every error produced by validateCurrentStep is non-empty. -/
lemma validate_some_ne_empty {s : WizState} {e : String}
    (h : validateCurrentStep s = some e) : e ≠ "" := by
  unfold validateCurrentStep at h
  split_ifs at h <;> cases h <;> decide

/-- Frame lemma for one event: either the state is unchanged; or the step
is unchanged and core_values can change only on step 4 and the description
state only on step 8; or the step advances by one with the current step
validated and all other claim-relevant state unchanged; or the step
retreats by one with all other claim-relevant state unchanged. -/
lemma applyEvent_frame (s : WizState) (e : Event) :
    applyEvent s e = s ∨
    ((applyEvent s e).currentStep = s.currentStep ∧
      ((applyEvent s e).formData.core_values = s.formData.core_values ∨ s.currentStep = 4) ∧
      (((applyEvent s e).aiDescriptions = s.aiDescriptions ∧
          (applyEvent s e).selectedDescription = s.selectedDescription) ∨ s.currentStep = 8)) ∨
    (validateCurrentStep s = none ∧
      (applyEvent s e).currentStep = s.currentStep + 1 ∧
      (applyEvent s e).formData = s.formData ∧
      (applyEvent s e).aiDescriptions = s.aiDescriptions ∧
      (applyEvent s e).selectedDescription = s.selectedDescription) ∨
    ((applyEvent s e).currentStep = s.currentStep - 1 ∧
      (applyEvent s e).formData = s.formData ∧
      (applyEvent s e).aiDescriptions = s.aiDescriptions ∧
      (applyEvent s e).selectedDescription = s.selectedDescription) := by
  by_cases hc : s.closed = true
  · left
    simp [applyEvent, hc]
  cases e with
  | next =>
      by_cases hg : s.currentStep < 10 ∧ ¬isNextButtonDisabled s = true
      · cases hv : validateCurrentStep s with
        | none =>
            right; right; left
            refine ⟨rfl, ?_, ?_, ?_, ?_⟩ <;> simp [applyEvent, hc, hg, nextStep, hv]
        | some msg =>
            right; left
            refine ⟨?_, Or.inl ?_, Or.inl ⟨?_, ?_⟩⟩ <;>
              simp [applyEvent, hc, hg, nextStep, hv]
      · left
        simp only [applyEvent]
        rw [if_neg hc, if_neg hg]
  | prev =>
      by_cases hg : 1 < s.currentStep
      · right; right; right
        refine ⟨?_, ?_, ?_, ?_⟩ <;> simp [applyEvent, hc, hg, prevStep]
      · left
        simp [applyEvent, hc, hg]
  | cancel =>
      right; left
      refine ⟨?_, Or.inl ?_, Or.inl ⟨?_, ?_⟩⟩ <;> simp [applyEvent, hc]
  | setName v =>
      by_cases hg : s.currentStep = 1
      · right; left
        refine ⟨?_, Or.inl ?_, Or.inl ⟨?_, ?_⟩⟩ <;> simp [applyEvent, hc, hg]
      · left
        simp [applyEvent, hc, hg]
  | setDescription v =>
      by_cases hg : s.currentStep = 1
      · right; left
        refine ⟨?_, Or.inl ?_, Or.inl ⟨?_, ?_⟩⟩ <;> simp [applyEvent, hc, hg]
      · left
        simp [applyEvent, hc, hg]
  | setPoliticalLeaning v =>
      by_cases hg : s.currentStep = 1
      · right; left
        refine ⟨?_, Or.inl ?_, Or.inl ⟨?_, ?_⟩⟩ <;> simp [applyEvent, hc, hg]
      · left
        simp [applyEvent, hc, hg]
  | toggleIssue k =>
      by_cases hg : s.currentStep = 2
      · right; left
        refine ⟨?_, Or.inl ?_, Or.inl ⟨?_, ?_⟩⟩ <;> simp [applyEvent, hc, hg]
      · left
        simp [applyEvent, hc, hg]
  | setIssuePosition k f v =>
      by_cases hg : s.currentStep = 2
      · right; left
        refine ⟨?_, Or.inl ?_, Or.inl ⟨?_, ?_⟩⟩ <;> simp [applyEvent, hc, hg]
      · left
        simp [applyEvent, hc, hg]
  | setAbortionPosition v =>
      by_cases hg : s.currentStep = 3
      · right; left
        refine ⟨?_, Or.inl ?_, Or.inl ⟨?_, ?_⟩⟩ <;> simp [applyEvent, hc, hg]
      · left
        simp [applyEvent, hc, hg]
  | toggleCoreValueE k =>
      by_cases hg : s.currentStep = 4
      · right; left
        refine ⟨?_, Or.inr hg, Or.inl ⟨?_, ?_⟩⟩ <;> simp [applyEvent, hc, hg]
      · left
        simp [applyEvent, hc, hg]
  | setTone v =>
      by_cases hg : s.currentStep = 5
      · right; left
        refine ⟨?_, Or.inl ?_, Or.inl ⟨?_, ?_⟩⟩ <;> simp [applyEvent, hc, hg]
      · left
        simp [applyEvent, hc, hg]
  | setAdditionalContext v =>
      by_cases hg : s.currentStep = 5
      · right; left
        refine ⟨?_, Or.inl ?_, Or.inl ⟨?_, ?_⟩⟩ <;> simp [applyEvent, hc, hg]
      · left
        simp [applyEvent, hc, hg]
  | toggleFrameworkE k =>
      by_cases hg : s.currentStep = 6
      · right; left
        refine ⟨?_, Or.inl ?_, Or.inl ⟨?_, ?_⟩⟩ <;> simp [applyEvent, hc, hg]
      · left
        simp [applyEvent, hc, hg]
  | setAligned v =>
      by_cases hg : s.currentStep = 7
      · right; left
        refine ⟨?_, Or.inl ?_, Or.inl ⟨?_, ?_⟩⟩ <;> simp [applyEvent, hc, hg]
      · left
        simp [applyEvent, hc, hg]
  | setOpposing v =>
      by_cases hg : s.currentStep = 7
      · right; left
        refine ⟨?_, Or.inl ?_, Or.inl ⟨?_, ?_⟩⟩ <;> simp [applyEvent, hc, hg]
      · left
        simp [applyEvent, hc, hg]
  | setBipartisan v =>
      by_cases hg : s.currentStep = 7
      · right; left
        refine ⟨?_, Or.inl ?_, Or.inl ⟨?_, ?_⟩⟩ <;> simp [applyEvent, hc, hg]
      · left
        simp [applyEvent, hc, hg]
  | setCommunityType v =>
      by_cases hg : s.currentStep = 7
      · right; left
        refine ⟨?_, Or.inl ?_, Or.inl ⟨?_, ?_⟩⟩ <;> simp [applyEvent, hc, hg]
      · left
        simp [applyEvent, hc, hg]
  | setStateConcerns v =>
      by_cases hg : s.currentStep = 7
      · right; left
        refine ⟨?_, Or.inl ?_, Or.inl ⟨?_, ?_⟩⟩ <;> simp [applyEvent, hc, hg]
      · left
        simp [applyEvent, hc, hg]
  | generateResult r =>
      by_cases hg : s.currentStep = 8
      · right; left
        cases r with
        | ok od =>
            cases od with
            | some d =>
                refine ⟨?_, Or.inl ?_, Or.inr hg⟩ <;> simp [applyEvent, hc, hg]
            | none =>
                refine ⟨?_, Or.inl ?_, Or.inr hg⟩ <;> simp [applyEvent, hc, hg]
        | error detail =>
            refine ⟨?_, Or.inl ?_, Or.inr hg⟩ <;> simp [applyEvent, hc, hg]
      · left
        simp [applyEvent, hc, hg]
  | selectDescription d =>
      by_cases hg : s.currentStep = 8 ∧ descAvailable s.aiDescriptions d = true
      · right; left
        refine ⟨?_, Or.inl ?_, Or.inr hg.1⟩ <;> simp [applyEvent, hc, hg]
      · left
        simp [applyEvent, hc, hg]
  | setWritingSamples vs =>
      by_cases hg : s.currentStep = 9
      · right; left
        refine ⟨?_, Or.inl ?_, Or.inl ⟨?_, ?_⟩⟩ <;> simp [applyEvent, hc, hg]
      · left
        simp [applyEvent, hc, hg]
  | submitResult r =>
      by_cases hg : s.currentStep = 10
      · right; left
        have hv := validate_none_at10 hg
        cases r with
        | ok u =>
            refine ⟨?_, Or.inl ?_, Or.inl ⟨?_, ?_⟩⟩ <;>
              simp [applyEvent, hc, hg, handleSubmit, hv]
        | error detail =>
            refine ⟨?_, Or.inl ?_, Or.inl ⟨?_, ?_⟩⟩ <;>
              simp [applyEvent, hc, hg, handleSubmit, hv]
      · left
        simp [applyEvent, hc, hg]

/-- Iterating events preserves reachability. -/
lemma reachable_foldl {s : WizState} (h : Reachable s) (es : List Event) :
    Reachable (es.foldl applyEvent s) := by
  induction es generalizing s with
  | nil => exact h
  | cons e t ih => exact ih (Reachable.tick s e h)

/-- In every reachable state past step 4 the core-values window holds. -/
lemma reachable_coreValuesInv {s : WizState} (h : Reachable s) : coreValuesInv s := by
  induction h with
  | init editMode fd sel =>
      intro h4
      simp [initState] at h4
  | tick s e hr ih =>
      rcases applyEvent_frame s e with heq | ⟨hst, hcore, _⟩ | ⟨hv, hst, hfd, _, _⟩ |
        ⟨hst, hfd, _, _⟩
      · rw [heq]; exact ih
      · intro h4
        rw [hst] at h4
        rcases hcore with hcv | h4s
        · have hr2 := ih h4
          unfold coreValuesInRange at hr2 ⊢
          rw [hcv]
          exact hr2
        · rw [h4s] at h4
          exact absurd h4 (by omega)
      · intro h4
        rw [hst] at h4
        unfold coreValuesInRange
        rw [hfd]
        by_cases h4s : s.currentStep = 4
        · exact validate_none_at4 h4s hv
        · exact ih (by omega)
      · intro h4
        rw [hst] at h4
        unfold coreValuesInRange
        rw [hfd]
        exact ih (by omega)

/-- In every reachable state past step 8 descriptions exist and a non-blank
one is selected. -/
lemma reachable_descGateInv {s : WizState} (h : Reachable s) : descGateInv s := by
  induction h with
  | init editMode fd sel =>
      intro h8
      simp [initState] at h8
  | tick s e hr ih =>
      rcases applyEvent_frame s e with heq | ⟨hst, _, hdesc⟩ | ⟨hv, hst, _, hai, hsel⟩ |
        ⟨hst, _, hai, hsel⟩
      · rw [heq]; exact ih
      · intro h8
        rw [hst] at h8
        rcases hdesc with ⟨hai, hsel⟩ | h8s
        · rw [hai, hsel]
          exact ih h8
        · rw [h8s] at h8
          exact absurd h8 (by omega)
      · intro h8
        rw [hst] at h8
        rw [hai, hsel]
        by_cases h8s : s.currentStep = 8
        · exact validate_none_at8 h8s hv
        · exact ih (by omega)
      · intro h8
        rw [hst] at h8
        rw [hai, hsel]
        exact ih (by omega)

end WritingProfileWizard

namespace LetterWizard

set_option maxHeartbeats 1600000 in
/-- Every error produced by the letter wizard validator is non-empty. -/
lemma lw_validate_some_ne_empty {s : LWState} {e : String}
    (h : validateCurrentStep s = some e) : e ≠ "" := by
  unfold validateCurrentStep at h
  split_ifs at h <;> cases h <;> decide

/-- The letter wizard nextStep never touches the form data. -/
lemma nextStep_formData (s : LWState) : (nextStep s).formData = s.formData := by
  unfold nextStep
  cases validateCurrentStep s <;> rfl

/-- The article-URL invariant only depends on the stored list. -/
lemma articleUrlsInv_congr {parseProtocol : String → Option String} {s t : LWState}
    (he : t.formData.articleUrls = s.formData.articleUrls)
    (h : articleUrlsInv parseProtocol s) : articleUrlsInv parseProtocol t := by
  unfold articleUrlsInv at h ⊢
  rw [he]
  exact h

/-- Position-based removal yields a sublist. -/
lemma removeIdx_sublist (l : List String) (idx : Nat) :
    ((l.enum.filter (fun p => p.1 ≠ idx)).map Prod.snd).Sublist l := by
  have h1 : (l.enum.filter (fun p => p.1 ≠ idx)).Sublist l.enum := List.filter_sublist _
  have h2 := h1.map Prod.snd
  have h3 : l.enum.map Prod.snd = l := List.enumFrom_map_snd 0 l
  rwa [h3] at h2

/-- addArticleUrl preserves the article-URL invariant: it only ever appends
a trimmed URL that parses with an http(s) protocol and is not yet present. -/
lemma addArticleUrl_inv (parseProtocol : String → Option String) (s : LWState)
    (h : articleUrlsInv parseProtocol s) :
    articleUrlsInv parseProtocol (addArticleUrl parseProtocol s) := by
  by_cases h0 : trimStr s.currentUrl = ""
  · exact articleUrlsInv_congr (by simp [addArticleUrl, h0]) h
  cases hp : parseProtocol (trimStr s.currentUrl) with
  | none => exact articleUrlsInv_congr (by simp [addArticleUrl, h0, hp]) h
  | some proto =>
      by_cases hproto : proto = "http:" ∨ proto = "https:"
      · by_cases hdup : trimStr s.currentUrl ∈ s.formData.articleUrls
        · exact articleUrlsInv_congr (by simp [addArticleUrl, h0, hp, hproto, hdup]) h
        · have hnew : (addArticleUrl parseProtocol s).formData.articleUrls =
              s.formData.articleUrls ++ [trimStr s.currentUrl] := by
            simp [addArticleUrl, h0, hp, hproto, hdup]
          obtain ⟨hall, hnd⟩ := h
          unfold articleUrlsInv
          rw [hnew]
          constructor
          · intro u hu
            rcases List.mem_append.mp hu with hu | hu
            · exact hall u hu
            · rw [List.mem_singleton.mp hu]
              exact ⟨proto, hp, hproto⟩
          · rw [List.nodup_append]
            refine ⟨hnd, List.nodup_singleton _, ?_⟩
            intro a ha hb
            rw [List.mem_singleton.mp hb] at ha
            exact hdup ha
      · exact articleUrlsInv_congr (by simp [addArticleUrl, h0, hp, hproto]) h

/-- Every letter-wizard event preserves the article-URL invariant. -/
lemma articleUrlsInv_applyEvent (parseProtocol : String → Option String)
    (s : LWState) (e : LWEvent) (h : articleUrlsInv parseProtocol s) :
    articleUrlsInv parseProtocol (lwApplyEvent parseProtocol s e) := by
  by_cases hc : s.closed = true
  · exact articleUrlsInv_congr (by simp [lwApplyEvent, hc]) h
  cases e with
  | next =>
      by_cases hg : s.currentStep < 6
      · cases hv : validateCurrentStep s with
        | none => exact articleUrlsInv_congr (by simp [lwApplyEvent, hc, hg, nextStep, hv]) h
        | some m => exact articleUrlsInv_congr (by simp [lwApplyEvent, hc, hg, nextStep, hv]) h
      · exact articleUrlsInv_congr (by simp [lwApplyEvent, hc, hg]) h
  | prev =>
      by_cases hg : 1 < s.currentStep ∧ s.currentStep < 7
      · exact articleUrlsInv_congr (by simp [lwApplyEvent, hc, hg, prevStep]) h
      · exact articleUrlsInv_congr (by simp [lwApplyEvent, hc, hg]) h
  | cancel => exact articleUrlsInv_congr (by simp [lwApplyEvent, hc]) h
  | setWritingProfileId v =>
      by_cases hg : s.currentStep = 1 <;>
        exact articleUrlsInv_congr (by simp [lwApplyEvent, hc, hg]) h
  | toggleRecipientE id =>
      by_cases hg : s.currentStep = 2 <;>
        exact articleUrlsInv_congr (by simp [lwApplyEvent, hc, hg]) h
  | setCurrentUrl v =>
      by_cases hg : s.currentStep = 3 <;>
        exact articleUrlsInv_congr (by simp [lwApplyEvent, hc, hg]) h
  | addUrl =>
      by_cases hg : s.currentStep = 3
      · have he : lwApplyEvent parseProtocol s .addUrl = addArticleUrl parseProtocol s := by
          simp [lwApplyEvent, hc, hg]
        rw [he]
        exact addArticleUrl_inv parseProtocol s h
      · exact articleUrlsInv_congr (by simp [lwApplyEvent, hc, hg]) h
  | removeUrl idx =>
      by_cases hg : s.currentStep = 3
      · have hnew : (lwApplyEvent parseProtocol s (.removeUrl idx)).formData.articleUrls =
            (s.formData.articleUrls.enum.filter (fun p => p.1 ≠ idx)).map Prod.snd := by
          simp [lwApplyEvent, hc, hg, removeArticleUrl]
        have hsub := removeIdx_sublist s.formData.articleUrls idx
        obtain ⟨hall, hnd⟩ := h
        unfold articleUrlsInv
        rw [hnew]
        exact ⟨fun u hu => hall u (hsub.subset hu), hsub.nodup hnd⟩
      · exact articleUrlsInv_congr (by simp [lwApplyEvent, hc, hg]) h
  | setSameLetterForAll b =>
      by_cases hg : s.currentStep = 3 <;>
        exact articleUrlsInv_congr (by simp [lwApplyEvent, hc, hg]) h
  | topicsResult r =>
      by_cases hg : s.currentStep = 4
      · by_cases hemp : s.formData.articleUrls.isEmpty = true
        · exact articleUrlsInv_congr (by simp [lwApplyEvent, hc, hg, hemp]) h
        · cases r with
          | ok ts => exact articleUrlsInv_congr (by simp [lwApplyEvent, hc, hg, hemp]) h
          | error m => exact articleUrlsInv_congr (by simp [lwApplyEvent, hc, hg, hemp]) h
      · exact articleUrlsInv_congr (by simp [lwApplyEvent, hc, hg]) h
  | selectTopic v =>
      by_cases hg : s.currentStep = 4 <;>
        exact articleUrlsInv_congr (by simp [lwApplyEvent, hc, hg]) h
  | setCustomTopic v =>
      by_cases hg : s.currentStep = 4 <;>
        exact articleUrlsInv_congr (by simp [lwApplyEvent, hc, hg]) h
  | setCustomContext v =>
      by_cases hg : s.currentStep = 5 <;>
        exact articleUrlsInv_congr (by simp [lwApplyEvent, hc, hg]) h
  | generateLettersResult r =>
      by_cases hg : s.currentStep = 6
      · cases r with
        | ok ls =>
            exact articleUrlsInv_congr
              (by simp [lwApplyEvent, hc, hg, nextStep_formData]) h
        | error m => exact articleUrlsInv_congr (by simp [lwApplyEvent, hc, hg]) h
      · exact articleUrlsInv_congr (by simp [lwApplyEvent, hc, hg]) h
  | saveResult r =>
      by_cases hg : s.currentStep = 7
      · cases r with
        | ok u => exact articleUrlsInv_congr (by simp [lwApplyEvent, hc, hg]) h
        | error m => exact articleUrlsInv_congr (by simp [lwApplyEvent, hc, hg]) h
      · exact articleUrlsInv_congr (by simp [lwApplyEvent, hc, hg]) h

/-- In every reachable letter-wizard state the stored article URLs are
http(s) and pairwise distinct. -/
lemma lwReachable_articleUrlsInv {parseProtocol : String → Option String}
    {s : LWState} (h : LWReachable parseProtocol s) :
    articleUrlsInv parseProtocol s := by
  induction h with
  | init =>
      constructor
      · intro u hu
        simp [lwInitState] at hu
      · simp [lwInitState]
  | tick s e hr ih => exact articleUrlsInv_applyEvent parseProtocol s e ih

/-- Iterating letter-wizard events preserves reachability. -/
lemma lwReachable_foldl {parseProtocol : String → Option String} {s : LWState}
    (h : LWReachable parseProtocol s) (es : List LWEvent) :
    LWReachable parseProtocol (es.foldl (lwApplyEvent parseProtocol) s) := by
  induction es generalizing s with
  | nil => exact h
  | cons e t ih => exact ih (LWReachable.tick s e h)

end LetterWizard

/-! ## Claim theorems -/

/-- C1 counterexample: when the refresh call succeeds and the retried
request receives a second 401, the client does NOT redirect to /login and
does NOT remove the tokens — it keeps the freshly stored tokens and
propagates the rejection to the caller, because the retried request is
returned from the try block without being awaited, so its rejection never
reaches the catch block. This refutes the claim that a second 401 after
refresh redirects to /login and clears both localStorage keys. -/
theorem c1_counterexample :
    (respInterceptor false 401 ⟨Except.ok ⟨"tokA2", some "tokR2"⟩, some 401⟩
        ⟨some "tokA1", some "tokR1", none⟩).1.location ≠ some "/login" ∧
    (respInterceptor false 401 ⟨Except.ok ⟨"tokA2", some "tokR2"⟩, some 401⟩
        ⟨some "tokA1", some "tokR1", none⟩).1.access = some "tokA2" ∧
    (respInterceptor false 401 ⟨Except.ok ⟨"tokA2", some "tokR2"⟩, some 401⟩
        ⟨some "tokA1", some "tokR1", none⟩).1.refresh = some "tokR2" ∧
    (respInterceptor false 401 ⟨Except.ok ⟨"tokA2", some "tokR2"⟩, some 401⟩
        ⟨some "tokA1", some "tokR1", none⟩).2.2 = Except.error 401 := by
  refine ⟨by decide, rfl, rfl, rfl⟩

/-- C1 (amended): on a 401 of a not-yet-retried request the interceptor
performs exactly one refresh attempt. If the refresh succeeds it retries
the original request exactly once, stores the new access token, and a
second 401 from the retried request propagates to the caller with no
redirect, no token clearing and no further refresh; the redirect to /login
together with removal of both tokens happens exactly when the refresh call
itself fails. A request already carrying the _retry marker is never
refreshed again. -/
theorem c1_refresh_flow (env : InterceptEnv) (st : ClientState) :
    (∀ resp, env.refreshResult = .ok resp →
      (respInterceptor false 401 env st).2.1 = [.refreshCall, .retryCall] ∧
      (respInterceptor false 401 env st).1.access = some resp.access_token ∧
      (respInterceptor false 401 env st).1.location = st.location ∧
      (∀ s2, env.retryStatus = some s2 →
        (respInterceptor false 401 env st).2.2 = .error s2)) ∧
    (∀ e, env.refreshResult = .error e →
      (respInterceptor false 401 env st).2.1 = [.refreshCall] ∧
      (respInterceptor false 401 env st).1 = ⟨none, none, some "/login"⟩) ∧
    (∀ status, respInterceptor true status env st = (st, [], .error status)) := by
  refine ⟨?_, ?_, ?_⟩
  · intro resp hok
    refine ⟨?_, ?_, ?_, ?_⟩ <;>
      cases hr : env.retryStatus <;> simp [respInterceptor, hok, hr]
  · intro e herr
    exact ⟨by simp [respInterceptor, herr], by simp [respInterceptor, herr]⟩
  · intro status
    exact respInterceptor_retried status env st

/-- C1 witness: a concrete successful refresh followed by a failing retry
produces exactly one refresh and one retry; a concrete failing refresh
clears the tokens and redirects. -/
theorem c1_refresh_flow_witness :
    (respInterceptor false 401 ⟨Except.ok ⟨"newTok", none⟩, some 404⟩
        ⟨some "oldTok", some "oldRef", none⟩).2.1 = [.refreshCall, .retryCall] ∧
    (respInterceptor false 401 ⟨Except.error 500, none⟩
        ⟨some "oldTok", some "oldRef", none⟩).1 = ⟨none, none, some "/login"⟩ := by
  constructor
  · exact ((c1_refresh_flow ⟨Except.ok ⟨"newTok", none⟩, some 404⟩
      ⟨some "oldTok", some "oldRef", none⟩).1 ⟨"newTok", none⟩ rfl).1
  · exact ((c1_refresh_flow ⟨Except.error 500, none⟩
      ⟨some "oldTok", some "oldRef", none⟩).2.1 500 rfl).2

/-- C3 counterexample: with the page's initial status filter ("draft") a
finalized letter whose subject contains the search term is excluded from
the filtered result, refuting the claim that the filter output is exactly
the letters matching the term on subject, category or recipient name. -/
theorem c3_counterexample :
    matchesSearch "tax" letterTax = true ∧
    filterLetters [letterTax] "tax" "all" "draft" = [] := by
  constructor
  · decide
  · decide

/-- C3 (amended): a letter appears in the filter output iff it was fetched,
its status equals the status filter, it matches a non-empty search term
case-insensitively on subject, category or some recipient name, and it
carries the selected representative when the representative filter is not
"all"; moreover the search predicate reads only subject, category and
recipient names, so letters agreeing on those three agree on the match. -/
theorem c3_filter_membership :
    (∀ (letters : List Letter) (searchTerm rep status : String) (l : Letter),
      l ∈ filterLetters letters searchTerm rep status ↔
        l ∈ letters ∧ l.status = status ∧
          (searchTerm ≠ "" → matchesSearch searchTerm l = true) ∧
          (rep ≠ "all" → hasRecipientNamed rep l = true)) ∧
    (∀ (searchTerm : String) (l₁ l₂ : Letter), l₁.subject = l₂.subject →
      l₁.category = l₂.category →
      l₁.recipients.map Recipient.name = l₂.recipients.map Recipient.name →
      matchesSearch searchTerm l₁ = matchesSearch searchTerm l₂) := by
  constructor
  · intro letters searchTerm rep status l
    exact mem_filterLetters
  · intro searchTerm l₁ l₂ h1 h2 h3
    have hC : (l₁.recipients.any fun r => containsSub (lowerStr r.name) (lowerStr searchTerm)) =
        (l₂.recipients.any fun r => containsSub (lowerStr r.name) (lowerStr searchTerm)) :=
      recipients_any_congr (fun n => containsSub (lowerStr n) (lowerStr searchTerm)) h3
    simp only [matchesSearch]
    rw [h1, h2, hC]

/-- C3 witness: the membership characterisation evaluated on concrete
letters (the matching finalized letter is kept under the "finalized" status
filter and excluded under "draft"), and two letters differing only in body
text produce the same match. -/
theorem c3_filter_membership_witness :
    letterTax ∈ filterLetters [letterTax] "tax" "all" "finalized" ∧
    matchesSearch "tax" letterTax = matchesSearch "tax" letterTaxVariant := by
  constructor
  · exact (c3_filter_membership.1 [letterTax] "tax" "all" "finalized" letterTax).mpr
      ⟨by decide, by decide, fun _ => by decide, fun h => absurd rfl h⟩
  · exact c3_filter_membership.2 "tax" letterTax letterTaxVariant rfl rfl rfl

/-- C4: whenever the representative filter is any value other than "all",
every letter in the filter output has at least one recipient whose name
equals that value exactly. -/
theorem c4_rep_filter_exact (letters : List Letter) (searchTerm status rep : String)
    (hrep : rep ≠ "all") (l : Letter)
    (hl : l ∈ filterLetters letters searchTerm rep status) :
    ∃ r ∈ l.recipients, r.name = rep := by
  have h := (mem_filterLetters.mp hl).2.2.2 hrep
  unfold hasRecipientNamed at h
  rcases List.any_eq_true.mp h with ⟨r, hr, hname⟩
  exact ⟨r, hr, by simpa [beq_iff_eq] using hname⟩

/-- C4 witness: filtering by "Jane Doe" keeps letterTax, which indeed has a
recipient named exactly Jane Doe. -/
theorem c4_rep_filter_exact_witness :
    ∃ r ∈ letterTax.recipients, r.name = "Jane Doe" :=
  c4_rep_filter_exact [letterTax] "" "finalized" "Jane Doe" (by decide) letterTax
    (by decide)

/-- C7: toggling a letter status sends exactly the opposite status
('finalized' for 'draft', 'draft' for 'finalized'), then refreshes the list
through an API re-fetch (loadLetters with limit 50); no code path performs
a full page reload. -/
theorem c7_toggle_status_effects (letterId : Nat) (currentStatus : String) :
    toggledStatus "draft" = "finalized" ∧ toggledStatus "finalized" = "draft" ∧
    handleToggleStatus letterId currentStatus (.ok ()) =
      ([.updateLetterStatus letterId (toggledStatus currentStatus), .getLettersFetch 50],
        none) ∧
    (∀ r, ApiEffect.fullPageReload ∉ (handleToggleStatus letterId currentStatus r).1) := by
  refine ⟨rfl, rfl, rfl, ?_⟩
  intro r
  cases r <;> simp [handleToggleStatus]

/-- C10 counterexample: toggling the same key twice on a duplicate-free
list does not return the original list when the key is not in last
position: the removed element is re-appended at the end. -/
theorem c10_counterexample :
    (["a", "k", "b"] : List String).Nodup ∧
    toggleCoreValue (toggleCoreValue ["a", "k", "b"] "k") "k" ≠ ["a", "k", "b"] := by
  decide

/-- C10 (amended): on a duplicate-free list, toggling a key twice returns a
permutation of the original list (the original list itself exactly when the
key was absent); one application appends the key at the end when absent and
removes every occurrence when present. -/
theorem c10_toggle_twice (l : List String) (k : String) (h : l.Nodup) :
    (toggleCoreValue (toggleCoreValue l k) k).Perm l ∧
    (k ∉ l → toggleCoreValue (toggleCoreValue l k) k = l) ∧
    (k ∉ l → toggleCoreValue l k = l ++ [k]) ∧
    (k ∈ l → toggleCoreValue l k = l.filter (fun v => v ≠ k)) := by
  refine ⟨toggleCoreValue_toggle_perm l k h, ?_, ?_, ?_⟩
  · exact fun hm => toggleCoreValue_toggle_of_not_mem l k hm
  · exact fun hm => toggleCoreValue_of_not_mem hm
  · exact fun hm => toggleCoreValue_of_mem hm

/-- C10 witness: the double toggle on a concrete list is a permutation, and
toggling an absent key appends it. -/
theorem c10_toggle_twice_witness :
    (toggleCoreValue (toggleCoreValue ["a", "k", "b"] "k") "k").Perm ["a", "k", "b"] ∧
    toggleCoreValue ["a", "c"] "k" = ["a", "c", "k"] := by
  constructor
  · exact (c10_toggle_twice ["a", "k", "b"] "k" (by decide)).1
  · exact (c10_toggle_twice ["a", "c"] "k" (by decide)).2.2.1 (by decide)

namespace WritingProfileWizard

/-- C2: in every reachable wizard state in which handleSubmit issues the
create/update network call, the core_values list has between 3 and 5
entries; and a Next press on the core-values step with a count outside
that window leaves the step unchanged and shows a non-empty error. -/
theorem c2_core_values_window (s : WizState) (h : Reachable s) :
    (submitIssuesNetworkCall s →
      3 ≤ s.formData.core_values.length ∧ s.formData.core_values.length ≤ 5) ∧
    (s.currentStep = 4 → s.closed = false →
      ¬(3 ≤ s.formData.core_values.length ∧ s.formData.core_values.length ≤ 5) →
      (applyEvent s .next).currentStep = s.currentStep ∧
      (applyEvent s .next).error ≠ "") := by
  constructor
  · intro hcall
    obtain ⟨h10, _, _⟩ := hcall
    exact reachable_coreValuesInv h (by omega)
  · intro h4 hopen hbad
    have hc : ¬s.closed = true := by simp [hopen]
    have hguard : s.currentStep < 10 ∧ ¬isNextButtonDisabled s = true := by
      constructor
      · omega
      · simp [isNextButtonDisabled, h4]
    have happ : applyEvent s .next = nextStep s := by simp [applyEvent, hc, hguard]
    rw [happ]
    cases hv : validateCurrentStep s with
    | none => exact absurd (validate_none_at4 h4 hv) hbad
    | some msg =>
        unfold nextStep
        rw [hv]
        exact ⟨rfl, validate_some_ne_empty hv⟩

/-- C2 witness: a wizard driven to the core-values step with no selection
stays on the step with an error when Next is pressed. -/
theorem c2_core_values_window_witness :
    (applyEvent wpwStateAtStep4 .next).currentStep = wpwStateAtStep4.currentStep ∧
    (applyEvent wpwStateAtStep4 .next).error ≠ "" :=
  (c2_core_values_window wpwStateAtStep4
      (reachable_foldl (Reachable.init false fixtureFormData "") wpwRunToStep4)).2
    (by decide) (by decide) (by decide)

/-- C8: in every reachable wizard state the step index exceeds step 8 only
when aiDescriptions is non-null and the selected description is non-blank;
in particular both hold whenever handleSubmit issues the network call. -/
theorem c8_generation_gate (s : WizState) (h : Reachable s) :
    (8 < s.currentStep →
      s.aiDescriptions ≠ none ∧ trimStr s.selectedDescription ≠ "") ∧
    (submitIssuesNetworkCall s →
      s.aiDescriptions ≠ none ∧ trimStr s.selectedDescription ≠ "") := by
  refine ⟨reachable_descGateInv h, ?_⟩
  intro hcall
  obtain ⟨h10, _, _⟩ := hcall
  exact reachable_descGateInv h (by omega)

/-- C8 witness: a full concrete run that generates descriptions on step 8
and advances to step 9 has descriptions and a non-blank selection. -/
theorem c8_generation_gate_witness :
    wpwStateAtStep9.aiDescriptions ≠ none ∧
    trimStr wpwStateAtStep9.selectedDescription ≠ "" :=
  (c8_generation_gate wpwStateAtStep9
      (reachable_foldl (Reachable.init false fixtureFormData "") wpwRunToStep9)).1
    (by decide)

/-- C6: when the create/update call of handleSubmit rejects, the wizard
stays open (neither onSuccess nor onClose runs), the form data is
untouched, the step does not move, a non-empty error shows, and it is the
backend detail whenever a non-empty detail is present; onSuccess and
onClose run exactly on a fulfilled call. -/
theorem c6_submit_failure_keeps_wizard_open (s : WizState)
    (hstep : s.currentStep = 10) (hopen : s.closed = false) :
    (∀ d, (applyEvent s (.submitResult (.error d))).formData = s.formData ∧
      (applyEvent s (.submitResult (.error d))).succeeded = s.succeeded ∧
      (applyEvent s (.submitResult (.error d))).closed = false ∧
      (applyEvent s (.submitResult (.error d))).currentStep = s.currentStep ∧
      (applyEvent s (.submitResult (.error d))).error ≠ "" ∧
      (∀ m, d = some m → m ≠ "" →
        (applyEvent s (.submitResult (.error d))).error = m)) ∧
    (applyEvent s (.submitResult (.ok ()))).succeeded = true ∧
    (applyEvent s (.submitResult (.ok ()))).closed = true := by
  have hv := validate_none_at10 hstep
  have hc : ¬s.closed = true := by simp [hopen]
  have hfb : ∀ b : Bool, submitFallbackError b ≠ "" := by
    intro b
    cases b <;> decide
  refine ⟨?_, ?_, ?_⟩
  · intro d
    cases d with
    | none =>
        refine ⟨?_, ?_, ?_, ?_, ?_, ?_⟩ <;>
          simp [applyEvent, hc, hstep, handleSubmit, hv, hopen, hfb]
    | some m =>
        by_cases hm : m = ""
        · subst hm
          refine ⟨?_, ?_, ?_, ?_, ?_, ?_⟩ <;>
            simp [applyEvent, hc, hstep, handleSubmit, hv, hopen, hfb]
        · refine ⟨?_, ?_, ?_, ?_, ?_, ?_⟩ <;>
            simp [applyEvent, hc, hstep, handleSubmit, hv, hopen, hm]
  · simp [applyEvent, hc, hstep, handleSubmit, hv]
  · simp [applyEvent, hc, hstep, handleSubmit, hv]

/-- C6 witness: on the concrete review-step state, a rejection with detail
Boom shows Boom and keeps the form; a fulfilled call closes the wizard. -/
theorem c6_submit_failure_keeps_wizard_open_witness :
    (applyEvent wpwStateAtStep10 (.submitResult (.error (some "Boom")))).error = "Boom" ∧
    (applyEvent wpwStateAtStep10 (.submitResult (.error (some "Boom")))).formData =
      wpwStateAtStep10.formData ∧
    (applyEvent wpwStateAtStep10 (.submitResult (.ok ()))).closed = true := by
  have h := c6_submit_failure_keeps_wizard_open wpwStateAtStep10 rfl rfl
  exact ⟨(h.1 (some "Boom")).2.2.2.2.2 "Boom" rfl (by decide), (h.1 (some "Boom")).1, h.2.2⟩

end WritingProfileWizard

/-- C5: in both wizards, nextStep advances the step by exactly one when the
current step validates and otherwise keeps the step and shows the non-empty
validation error; prevStep unconditionally retreats the step by exactly
one. -/
theorem c5_next_prev_steps :
    (∀ s : WritingProfileWizard.WizState,
      (WritingProfileWizard.validateCurrentStep s = none →
        (WritingProfileWizard.nextStep s).currentStep = s.currentStep + 1) ∧
      (∀ e, WritingProfileWizard.validateCurrentStep s = some e →
        (WritingProfileWizard.nextStep s).currentStep = s.currentStep ∧
        (WritingProfileWizard.nextStep s).error = e ∧ e ≠ "") ∧
      (WritingProfileWizard.prevStep s).currentStep = s.currentStep - 1) ∧
    (∀ t : LetterWizard.LWState,
      (LetterWizard.validateCurrentStep t = none →
        (LetterWizard.nextStep t).currentStep = t.currentStep + 1) ∧
      (∀ e, LetterWizard.validateCurrentStep t = some e →
        (LetterWizard.nextStep t).currentStep = t.currentStep ∧
        (LetterWizard.nextStep t).error = e ∧ e ≠ "") ∧
      (LetterWizard.prevStep t).currentStep = t.currentStep - 1) := by
  constructor
  · intro s
    refine ⟨?_, ?_, rfl⟩
    · intro hv
      simp [WritingProfileWizard.nextStep, hv]
    · intro e hv
      refine ⟨?_, ?_, WritingProfileWizard.validate_some_ne_empty hv⟩ <;>
        simp [WritingProfileWizard.nextStep, hv]
  · intro t
    refine ⟨?_, ?_, rfl⟩
    · intro hv
      simp [LetterWizard.nextStep, hv]
    · intro e hv
      refine ⟨?_, ?_, LetterWizard.lw_validate_some_ne_empty hv⟩ <;>
        simp [LetterWizard.nextStep, hv]

/-- C5 witness: concrete failing and passing steps in both wizards. -/
theorem c5_next_prev_steps_witness :
    (WritingProfileWizard.nextStep wpwStateAtStep4).currentStep =
      wpwStateAtStep4.currentStep ∧
    (WritingProfileWizard.nextStep wpwStateAtStep4).error =
      "Please select at least 3 core values" ∧
    (LetterWizard.nextStep LetterWizard.lwInitState).currentStep =
      LetterWizard.lwInitState.currentStep ∧
    (LetterWizard.prevStep lwStateWithUrl).currentStep =
      lwStateWithUrl.currentStep - 1 := by
  refine ⟨?_, ?_, ?_, ?_⟩
  · exact ((c5_next_prev_steps.1 wpwStateAtStep4).2.1
      "Please select at least 3 core values" (by decide)).1
  · exact ((c5_next_prev_steps.1 wpwStateAtStep4).2.1
      "Please select at least 3 core values" (by decide)).2.1
  · exact ((c5_next_prev_steps.2 LetterWizard.lwInitState).2.1
      "Please select a writing profile" (by decide)).1
  · exact (c5_next_prev_steps.2 lwStateWithUrl).2.2

namespace LetterWizard

/-- C9 counterexample: pressing Add with a blank URL input is rejected
silently: the state is completely unchanged and no error message is set,
refuting the claim that empty input is rejected with an error message. -/
theorem c9_counterexample :
    addArticleUrl simpleProtocolOf { lwInitState with currentStep := 3 } =
      { lwInitState with currentStep := 3 } ∧
    ({ lwInitState with currentStep := 3 } : LWState).error = "" := by
  exact ⟨rfl, rfl⟩

/-- C9 (amended): in every reachable letter-wizard state the article URL
list holds only strings whose parsed protocol is http or https and has no
duplicates; addArticleUrl leaves the form unchanged and sets a non-empty
error for unparsable input, for a parsed protocol other than http(s), and
for a duplicate of the trimmed URL; blank input is rejected silently, with
no state change and no error message. -/
theorem c9_article_urls (parseProtocol : String → Option String) (s : LWState)
    (h : LWReachable parseProtocol s) :
    ((∀ u ∈ s.formData.articleUrls, urlOk parseProtocol u) ∧
      s.formData.articleUrls.Nodup) ∧
    (trimStr s.currentUrl = "" → addArticleUrl parseProtocol s = s) ∧
    (trimStr s.currentUrl ≠ "" →
      (parseProtocol (trimStr s.currentUrl) = none →
        (addArticleUrl parseProtocol s).formData = s.formData ∧
        (addArticleUrl parseProtocol s).error ≠ "") ∧
      (∀ p, parseProtocol (trimStr s.currentUrl) = some p →
        ¬(p = "http:" ∨ p = "https:") →
        (addArticleUrl parseProtocol s).formData = s.formData ∧
        (addArticleUrl parseProtocol s).error ≠ "") ∧
      (∀ p, parseProtocol (trimStr s.currentUrl) = some p → (p = "http:" ∨ p = "https:") →
        trimStr s.currentUrl ∈ s.formData.articleUrls →
        (addArticleUrl parseProtocol s).formData = s.formData ∧
        (addArticleUrl parseProtocol s).error ≠ "")) := by
  refine ⟨lwReachable_articleUrlsInv h, ?_, ?_⟩
  · intro h0
    simp [addArticleUrl, h0]
  · intro h0
    refine ⟨?_, ?_, ?_⟩
    · intro hp
      constructor <;> simp [addArticleUrl, h0, hp]
    · intro p hp hproto
      constructor <;> simp [addArticleUrl, h0, hp, hproto]
    · intro p hp hproto hdup
      constructor <;> simp [addArticleUrl, h0, hp, hproto, hdup]

/-- C9 witness: a concrete run that adds one URL satisfies the invariant,
and its state evaluates to the expected single-element list. -/
theorem c9_article_urls_witness :
    ((∀ u ∈ lwStateWithUrl.formData.articleUrls, urlOk simpleProtocolOf u) ∧
      lwStateWithUrl.formData.articleUrls.Nodup) ∧
    lwStateWithUrl.formData.articleUrls = ["https://example.com/a"] := by
  constructor
  · exact (c9_article_urls simpleProtocolOf lwStateWithUrl
      (lwReachable_foldl LWReachable.init lwRunWithUrl)).1
  · decide

end LetterWizard

end RuthApp
